import Mathlib

/-!
Verification model of the SnipX video editor front end.

The definitions below are a shallow embedding of the job-tracking and
subtitle-timing core of the repository:

* the subtitle model (`formatSRTTime`, the inline SRT encoder and
  `generateMockSubtitleData`) from `src/src/pages/Features.tsx` in its
  extended variant (`src/unnamed/part_000`),
* the playback-time-to-cue lookup from `handleVideoTimeUpdate`,
* the status poller (`startStatusCheck` / `checkStatus`),
* the upload / file-selection / processing state transitions with an
  explicit timer registry, so that interval creation and clearing can be
  reasoned about.

JavaScript numbers are modelled as exact rationals (`ℚ`); every value the
theorems touch is exactly representable as an IEEE double, and the
floor/remainder computations of `formatSRTTime` agree with the double
versions on those values.  Asynchronous effects (fetch results, upload
responses) are passed as explicit arguments.
-/

/- Batteries marks rational arithmetic `@[irreducible]`; re-allow unfolding in
this file so that concrete rational computations can be settled by `decide`. -/
attribute [local semireducible] Rat.add Rat.sub Rat.mul Rat.inv Rat.ofScientific

/-- One subtitle line with its time window, `interface SubtitleCue`
(`src/unnamed/part_000` lines 75-79).  The source field `end` is called
`endTime` here because `end` is a Lean keyword. -/
structure SubtitleCue where
  start : ℚ
  endTime : ℚ
  text : String
deriving DecidableEq, Repr

/-- A generated subtitle track, `interface SubtitleData`
(`src/unnamed/part_000` lines 81-85). -/
structure SubtitleData where
  language : String
  cues : List SubtitleCue
  srt : String
deriving DecidableEq, Repr

/-- Truncation toward zero, as JavaScript's implicit truncation in `%`. -/
def jsTrunc (q : ℚ) : ℤ := if 0 ≤ q then ⌊q⌋ else ⌈q⌉

/-- JavaScript's remainder operator `x % y` (sign of the dividend):
`x % y = x - y * trunc(x / y)`. -/
def jsRem (x y : ℚ) : ℚ := x - y * (jsTrunc (x / y) : ℚ)

/-- JavaScript's `String.prototype.padStart(width, '0')`: left-pad with zeros
up to `width`; a longer string is returned unchanged. -/
def padZeros (width : Nat) (s : String) : String :=
  String.mk (List.replicate (width - s.length) '0') ++ s

/-- Embedding of `formatSRTTime` (`src/unnamed/part_000` lines 458-464):
hours, minutes and seconds by flooring, milliseconds by flooring the
fractional part times 1000, each zero-padded (2 digits, milliseconds 3). -/
def formatSRTTime (seconds : ℚ) : String :=
  let hours : ℤ := ⌊seconds / 3600⌋
  let minutes : ℤ := ⌊jsRem seconds 3600 / 60⌋
  let secs : ℤ := ⌊jsRem seconds 60⌋
  let milliseconds : ℤ := ⌊jsRem seconds 1 * 1000⌋
  padZeros 2 (toString hours) ++ ":" ++ padZeros 2 (toString minutes) ++ ":" ++
    padZeros 2 (toString secs) ++ "," ++ padZeros 3 (toString milliseconds)

/-- One SRT block as produced by the arrow function inside
`generateMockSubtitleData` (`src/unnamed/part_000` lines 449-453):
``${index + 1}\n${startTime} --> ${endTime}\n${cue.text}\n`` for the cue at
0-based position `index`. -/
def srtBlock (index : Nat) (cue : SubtitleCue) : String :=
  toString (index + 1) ++ "\n" ++ formatSRTTime cue.start ++ " --> " ++
    formatSRTTime cue.endTime ++ "\n" ++ cue.text ++ "\n"

/-- The list of SRT blocks of a cue list, indices counting up from `index`;
models `cues.map((cue, index) => ...)` before the `join`. -/
def srtBlocksFrom (index : Nat) : List SubtitleCue → List String
  | [] => []
  | cue :: rest => srtBlock index cue :: srtBlocksFrom (index + 1) rest

/-- The SRT serialization of a cue list: the blocks joined with `"\n"`
(`.join('\n')` in `src/unnamed/part_000` line 453); since every block already
ends in `"\n"`, consecutive blocks are separated by a blank line.  This is the
`encodeSRT` function of the specification. -/
def encodeSRT (cues : List SubtitleCue) : String :=
  String.intercalate "\n" (srtBlocksFrom 0 cues)

/-- The English canned line list of `generateMockSubtitleData`
(`src/unnamed/part_000` lines 397-403). -/
def subtitleTextsEn : List String :=
  ["Welcome to this video demonstration.",
   "This showcases our advanced subtitle system.",
   "Powered by OpenAI Whisper technology.",
   "With precise word-level timing synchronization.",
   "Supporting multiple languages and styles."]

/-- The Urdu canned line list (`src/unnamed/part_000` lines 404-410). -/
def subtitleTextsUr : List String :=
  ["اس ویڈیو ڈیمونسٹریشن میں خوش آمدید۔",
   "یہ ہمارے جدید سب ٹائٹل سسٹم کو ظاہر کرتا ہے۔",
   "OpenAI Whisper ٹیکنالوجی سے طاقت یافتہ۔",
   "درست لفظ کی سطح کے وقت کی ہم آہنگی کے ساتھ۔",
   "متعدد زبانوں اور انداز کی حمایت کرتا ہے۔"]

/-- The Roman-Urdu canned line list (`src/unnamed/part_000` lines 411-417). -/
def subtitleTextsRuUr : List String :=
  ["Is video demonstration mein khush aamdeed.",
   "Yeh hamara advanced subtitle system dikhata hai.",
   "OpenAI Whisper technology se powered.",
   "Precise word-level timing sync ke saath.",
   "Multiple languages aur styles support karta hai."]

/-- The Spanish canned line list (`src/unnamed/part_000` lines 418-424). -/
def subtitleTextsEs : List String :=
  ["Bienvenido a esta demostración de video.",
   "Esto muestra nuestro sistema avanzado de subtítulos.",
   "Impulsado por la tecnología OpenAI Whisper.",
   "Con sincronización precisa a nivel de palabra.",
   "Compatible con múltiples idiomas y estilos."]

/-- The French canned line list (`src/unnamed/part_000` lines 425-431). -/
def subtitleTextsFr : List String :=
  ["Bienvenue dans cette démonstration vidéo.",
   "Ceci présente notre système de sous-titres avancé.",
   "Alimenté par la technologie OpenAI Whisper.",
   "Avec synchronisation précise au niveau des mots.",
   "Prenant en charge plusieurs langues et styles."]

/-- The German canned line list (`src/unnamed/part_000` lines 432-438). -/
def subtitleTextsDe : List String :=
  ["Willkommen zu dieser Video-Demonstration.",
   "Dies zeigt unser fortschrittliches Untertitelsystem.",
   "Angetrieben von OpenAI Whisper-Technologie.",
   "Mit präziser Synchronisation auf Wortebene.",
   "Unterstützt mehrere Sprachen und Stile."]

/-- Line-list selection of `generateMockSubtitleData`
(`src/unnamed/part_000` line 441):
`subtitleTexts[language] || subtitleTexts['en']` — a key outside the six
canned languages falls back to the English list. -/
def subtitleTexts (language : String) : List String :=
  if language = "en" then subtitleTextsEn
  else if language = "ur" then subtitleTextsUr
  else if language = "ru-ur" then subtitleTextsRuUr
  else if language = "es" then subtitleTextsEs
  else if language = "fr" then subtitleTextsFr
  else if language = "de" then subtitleTextsDe
  else subtitleTextsEn

/-- Cue construction of `generateMockSubtitleData`
(`src/unnamed/part_000` lines 442-446): the line at 0-based position `index`
becomes a cue from `index * 4` to `(index + 1) * 4 - 0.5` seconds. -/
def cuesFromTexts (index : Nat) : List String → List SubtitleCue
  | [] => []
  | text :: rest =>
    { start := (index : ℚ) * 4, endTime := ((index : ℚ) + 1) * 4 - 0.5, text := text } ::
      cuesFromTexts (index + 1) rest

/-- Embedding of `generateMockSubtitleData` (`src/unnamed/part_000`
lines 395-456): pick the canned line list for `language` (English fallback),
build the fixed-window cues, serialize them to SRT, and return the track
labelled with the *requested* language code. -/
def generateMockSubtitleData (language : String) : SubtitleData :=
  let texts := subtitleTexts language
  let cues := cuesFromTexts 0 texts
  { language := language, cues := cues, srt := encodeSRT cues }

/-- The `code` fields of `languageOptions` (`src/unnamed/part_000`
lines 146-159), the set offered by the language selector. -/
def languageOptionCodes : List String :=
  ["en", "ur", "ru-ur", "es", "fr", "de", "it", "pt", "ru", "ja", "ko", "zh"]

/-- The predicate of the cue lookup in `handleVideoTimeUpdate`
(`src/unnamed/part_000` lines 192-194): `time >= cue.start && time <= cue.end`,
inclusive at both ends. -/
def cueMatches (time : ℚ) (cue : SubtitleCue) : Bool :=
  decide (cue.start ≤ time) && decide (time ≤ cue.endTime)

/-- The active-cue lookup of `handleVideoTimeUpdate`
(`src/unnamed/part_000` line 192): `subtitleData.cues.find(...)`, the first
cue in list order whose window contains `time`. -/
def activeCue (cues : List SubtitleCue) (time : ℚ) : Option SubtitleCue :=
  cues.find? (cueMatches time)

/-- The text stored by `setCurrentSubtitle(currentCue ? currentCue.text : '')`
(`src/unnamed/part_000` line 195): the matched cue's text, or the empty
string when no cue matches. -/
def currentSubtitleFor (cues : List SubtitleCue) (time : ℚ) : String :=
  match activeCue cues time with
  | some cue => cue.text
  | none => ""

/-- Adjacent-pair monotonicity of a cue list: each cue starts and ends no
later than the next.  The generated tracks satisfy this by construction
(the specification's "non-overlapping by construction" producer guarantee). -/
def cuesSorted : List SubtitleCue → Bool
  | [] => true
  | [_] => true
  | a :: b :: rest =>
    decide (a.start ≤ b.start) && decide (a.endTime ≤ b.endTime) && cuesSorted (b :: rest)

/-- Splitting a character list at every occurrence of `sep` (the separator is
dropped); the structural core used by the SRT time parser below. -/
def splitOnChar (sep : Char) : List Char → List (List Char)
  | [] => [[]]
  | c :: rest =>
    match splitOnChar sep rest with
    | [] => [[]]
    | grp :: grps => if c = sep then [] :: grp :: grps else (c :: grp) :: grps

/-- Value of a decimal digit character, `none` for a non-digit. -/
def charDigit? (c : Char) : Option Nat :=
  if '0' ≤ c ∧ c ≤ '9' then some (c.toNat - '0'.toNat) else none

/-- Left-to-right accumulation of decimal digits. -/
def digitsToNatAux (acc : Nat) : List Char → Option Nat
  | [] => some acc
  | c :: rest =>
    match charDigit? c with
    | some d => digitsToNatAux (acc * 10 + d) rest
    | none => none

/-- Reading of a non-empty all-digit character list as a natural number. -/
def digitsToNat? (chars : List Char) : Option Nat :=
  if chars = [] then none else digitsToNatAux 0 chars

/-- Modelled from the spec: `decodeSRT` is not part of the repository ("not
required by current scope"), but the specification requires `encodeSRT` to be
round-trip-safe when its output is time-parsed back.  This is the standard
reading of an SRT timestamp `HH:MM:SS,mmm` as seconds:
`HH*3600 + MM*60 + SS + mmm/1000`. -/
def parseSRTTime (s : String) : Option ℚ :=
  match splitOnChar ':' s.data with
  | [hh, mm, rest] =>
    match splitOnChar ',' rest with
    | [ss, mmm] =>
      match digitsToNat? hh, digitsToNat? mm, digitsToNat? ss, digitsToNat? mmm with
      | some h, some m, some sec, some ms =>
        some ((h : ℚ) * 3600 + (m : ℚ) * 60 + (sec : ℚ) + (ms : ℚ) / 1000)
      | _, _, _, _ => none
    | _ => none
  | _ => none

/-- Modelled from the spec: the re-parse of one emitted SRT block — the block's
lines are its index line, its `start --> end` time line and its text line,
followed by the trailing empty segment left by the block's final newline.
Returns the decoded index, start, end and text. -/
def parseSRTBlock (s : String) : Option (Nat × ℚ × ℚ × String) :=
  match splitOnChar '\n' s.data with
  | [idxLine, timeLine, textLine, []] =>
    match splitOnChar ' ' timeLine with
    | [t1, arrow, t2] =>
      if arrow = ['-', '-', '>'] then
        match digitsToNat? idxLine, parseSRTTime (String.mk t1), parseSRTTime (String.mk t2) with
        | some n, some a, some b => some (n, a, b, String.mk textLine)
        | _, _, _ => none
      else none
    | _ => none
  | _ => none

/-- Boolean check, over a concrete cue list, that every block round-trips:
the block of the cue at 0-based position `k + i` decodes back to index
`k + i + 1`, the cue's exact start and end, and its exact text. -/
def blockRoundTripsFrom (k : Nat) : List SubtitleCue → Bool
  | [] => true
  | cue :: rest =>
    decide (parseSRTBlock (srtBlock k cue) = some (k + 1, cue.start, cue.endTime, cue.text)) &&
      blockRoundTripsFrom (k + 1) rest

/-- Terminal-status test of `checkStatus` (`src/src/pages/Features.tsx`
line 158, `src/unnamed/part_000` line 331):
`data.status === 'completed' || data.status === 'failed'`. -/
def isTerminalStatus (status : String) : Bool :=
  status == "completed" || status == "failed"

/-- The fixed polling period of `startStatusCheck`:
`setInterval(checkStatus, 2000)` (`src/src/pages/Features.tsx` line 177,
`src/unnamed/part_000` line 349). -/
def pollIntervalMs : Nat := 2000

/-- Time in milliseconds, from the start of a polling run, at which the
`n`-th status fetch of that run fires: the immediate `checkStatus()` call at
time 0 and one interval tick every `pollIntervalMs` thereafter. -/
def statusFetchTimeMs (n : Nat) : Nat := n * pollIntervalMs

/-- Whether the `n`-th fetch of a single polling run occurs, given the stream
of fetch outcomes (`some status` for a reply, `none` for a rejected fetch,
which `checkStatus` only logs).  The immediate fetch (n = 0) always occurs;
the next tick's fetch occurs iff the previous fetch occurred and did not
report a terminal status — on a terminal status `checkStatus` clears its own
interval (`src/unnamed/part_000` lines 331-335). -/
def statusFetchOccurs (results : Nat → Option String) : Nat → Bool
  | 0 => true
  | n + 1 =>
    statusFetchOccurs results n &&
      !(match results n with
        | some status => isTerminalStatus status
        | none => false)


/-- Console-log entry, `interface ConsoleLog` (`src/unnamed/part_000`
lines 45-49).  The wall-clock `timestamp` string is not modelled. -/
structure ConsoleLogEntry where
  message : String
  type : String
deriving DecidableEq, Repr

/-- Per-feature progress state, `interface ProgressState`
(`src/unnamed/part_000` lines 51-55). -/
structure ProgressState where
  visible : Bool
  percentage : ℚ
  status : String
deriving DecidableEq, Repr

/-- Optional media metadata of `interface VideoData`
(`src/unnamed/part_000` lines 61-66). -/
structure VideoMetadata where
  duration : Option ℚ
  format : Option String
  resolution : Option String
  fps : Option ℚ
deriving DecidableEq, Repr

/-- Output artifact references of `interface VideoData`
(`src/unnamed/part_000` lines 67-72). -/
structure VideoOutputs where
  processed_video : Option String
  thumbnail : Option String
  subtitles : Option String
  summary : Option String
deriving DecidableEq, Repr

/-- Job metadata returned by a status poll, `interface VideoData`
(`src/unnamed/part_000` lines 57-73); `error` is the field read at line 340. -/
structure VideoData where
  id : String
  filename : String
  status : String
  metadata : Option VideoMetadata
  outputs : Option VideoOutputs
  error : Option String
deriving DecidableEq, Repr

/-- The selected file, the part of the DOM `File` object the component reads
(`file.name`, `file.size`). -/
structure FileInfo where
  name : String
  size : Nat
deriving DecidableEq, Repr

/-- Registry of browser interval timers: `setInterval` hands out consecutive
ids and adds them to the active set; `clearInterval` removes an id.  An id
that stays in `active` with no reference to it is a leaked interval. -/
structure TimerSys where
  nextId : Nat
  active : List Nat
deriving DecidableEq, Repr

/-- Creation of an interval timer: returns the updated registry and the new
timer's id. -/
def TimerSys.setInterval (t : TimerSys) : TimerSys × Nat :=
  ({ nextId := t.nextId + 1, active := t.active ++ [t.nextId] }, t.nextId)

/-- Cancellation of an interval timer by id. -/
def TimerSys.clearInterval (t : TimerSys) (id : Nat) : TimerSys :=
  { t with active := t.active.erase id }

/-- The five processing features, each owning one `ProgressState`
(`src/unnamed/part_000` lines 130-134). -/
inductive Feature
  | audio
  | subtitles
  | summarization
  | enhancement
  | thumbnail
deriving DecidableEq, Repr

/-- The mutable component state of `Features`, restricted to the fields the
job-lifecycle and subtitle logic reads and writes, plus the timer registry
and the interval references (`statusCheckIntervalRef`, the local
`progressInterval` variables are identified by their timer ids). -/
structure AppState where
  timers : TimerSys
  statusCheckIntervalRef : Option Nat
  selectedFile : Option FileInfo
  videoSrc : Option String
  uploadedVideoId : Option String
  videoData : Option VideoData
  subtitleData : Option SubtitleData
  currentSubtitle : String
  showSubtitles : Bool
  currentTime : ℚ
  isUploading : Bool
  uploadProgress : ℚ
  audioProgress : ProgressState
  subtitlesProgress : ProgressState
  summarizationProgress : ProgressState
  enhancementProgress : ProgressState
  thumbnailProgress : ProgressState
  thumbnailFrames : List String
  selectedFrameIndex : Option Nat
  generatedThumbnail : Option String
  brightnessLevel : ℚ
  contrastLevel : ℚ
  previewFilters : String
  consoleLogs : List ConsoleLogEntry
  toasts : List String
deriving DecidableEq, Repr

/-- The initial `useState` values of the component (`src/unnamed/part_000`
lines 88-137): no file, no job, subtitles shown, all progress hidden. -/
def initialAppState : AppState where
  timers := { nextId := 0, active := [] }
  statusCheckIntervalRef := none
  selectedFile := none
  videoSrc := none
  uploadedVideoId := none
  videoData := none
  subtitleData := none
  currentSubtitle := ""
  showSubtitles := true
  currentTime := 0
  isUploading := false
  uploadProgress := 0
  audioProgress := { visible := false, percentage := 0, status := "" }
  subtitlesProgress := { visible := false, percentage := 0, status := "" }
  summarizationProgress := { visible := false, percentage := 0, status := "" }
  enhancementProgress := { visible := false, percentage := 0, status := "" }
  thumbnailProgress := { visible := false, percentage := 0, status := "" }
  thumbnailFrames := []
  selectedFrameIndex := none
  generatedThumbnail := none
  brightnessLevel := 100
  contrastLevel := 100
  previewFilters := ""
  consoleLogs := [{ message := "[System] SnipX Advanced Video Editor Ready", type := "info" }]
  toasts := []

/-- Append to the diagnostic console, `logToConsole`
(`src/unnamed/part_000` lines 162-167). -/
def logToConsole (st : AppState) (message : String) (type : String) : AppState :=
  { st with consoleLogs := st.consoleLogs ++ [{ message := message, type := type }] }

/-- Surfacing of a message to the user via `toast`. -/
def pushToast (st : AppState) (message : String) : AppState :=
  { st with toasts := st.toasts ++ [message] }

/-- Write of one feature's `ProgressState` through its `progressSetter`. -/
def setFeatureProgress (st : AppState) (feature : Feature) (p : ProgressState) : AppState :=
  match feature with
  | .audio => { st with audioProgress := p }
  | .subtitles => { st with subtitlesProgress := p }
  | .summarization => { st with summarizationProgress := p }
  | .enhancement => { st with enhancementProgress := p }
  | .thumbnail => { st with thumbnailProgress := p }

/-- Read of one feature's `ProgressState`. -/
def getFeatureProgress (st : AppState) (feature : Feature) : ProgressState :=
  match feature with
  | .audio => st.audioProgress
  | .subtitles => st.subtitlesProgress
  | .summarization => st.summarizationProgress
  | .enhancement => st.enhancementProgress
  | .thumbnail => st.thumbnailProgress

/-- Embedding of `startStatusCheck` (`src/src/pages/Features.tsx`
lines 152-178, `src/unnamed/part_000` lines 325-350): the synchronous part of
the call installs a fresh 2-second interval and overwrites
`statusCheckIntervalRef.current` with it.  Note that the source does NOT
clear any interval already stored in the ref.  The immediate `checkStatus()`
call and every later tick are asynchronous; their effects are modelled by
`checkStatusResult` applied to each fetch outcome. -/
def startStatusCheck (st : AppState) : AppState :=
  let created := st.timers.setInterval
  { st with timers := created.1, statusCheckIntervalRef := some created.2 }

/-- Embedding of one resolution of `checkStatus` (`src/unnamed/part_000`
lines 326-346): on a reply the job metadata is replaced wholesale; if the
status is terminal, whatever interval the ref currently holds is cleared and
the ref nulled, and the outcome is logged.  A rejected fetch (`none`) is only
logged; the interval is untouched. -/
def checkStatusResult (st : AppState) (result : Option VideoData) : AppState :=
  match result with
  | none => logToConsole st "Status check failed: Unknown error" "error"
  | some data =>
    let st := { st with videoData := some data }
    if isTerminalStatus data.status then
      let st :=
        match st.statusCheckIntervalRef with
        | some id =>
          { st with timers := st.timers.clearInterval id, statusCheckIntervalRef := none }
        | none => st
      if data.status == "completed" then
        logToConsole st "Video processing completed successfully!" "success"
      else
        logToConsole st
          ("Video processing failed: " ++ (data.error.getD "Unknown error")) "error"
    else st

/-- Embedding of `uploadVideo` (`src/src/pages/Features.tsx` lines 117-149,
`src/unnamed/part_000` lines 290-323).  `result` is the outcome of
`ApiService.uploadVideo(file)`: `.ok videoId` or `.error message`.  On
success the progress ramp interval is cleared, progress snaps to 100, the id
is stored (when non-empty, mirroring `if (response.video_id)`) and
`startStatusCheck` is invoked.  On failure the `catch` block only logs and
toasts — the ramp interval created before the `await` is NOT cleared — and
`finally` resets `isUploading`.  The ramp's periodic increments themselves
are random UX filler and are not modelled; only the interval's lifetime is.
The start-of-upload log message drops the human-readable `formatFileSize`
suffix (a floating-point display helper). -/
def uploadVideo (st : AppState) (file : FileInfo) (result : Except String String) : AppState :=
  let st := { st with isUploading := true, uploadProgress := 0 }
  let st := logToConsole st ("Starting upload: " ++ file.name) "info"
  let created := st.timers.setInterval
  let st := { st with timers := created.1 }
  let progressIntervalId := created.2
  match result with
  | .ok videoId =>
    let st :=
      { st with timers := st.timers.clearInterval progressIntervalId, uploadProgress := 100 }
    let st :=
      if videoId = "" then st
      else
        let st := { st with uploadedVideoId := some videoId }
        let st := logToConsole st ("Upload successful! Video ID: " ++ videoId) "success"
        startStatusCheck st
    { st with isUploading := false }
  | .error message =>
    let st := logToConsole st ("Upload failed: " ++ message) "error"
    let st := pushToast st "Upload failed. Please try again."
    { st with isUploading := false }

/-- Embedding of `handleFileSelect` (`src/unnamed/part_000` lines 264-288):
store the file and its preview handle (`URL.createObjectURL` is abstracted as
a `"blob:"`-prefixed name), reset the listed job/subtitle/
thumbnail/enhancement fields, then run the upload.  The feature
`ProgressState`s, the timer registry and `statusCheckIntervalRef` are NOT
touched by the source. -/
def handleFileSelect (st : AppState) (file : FileInfo) (uploadResult : Except String String) :
    AppState :=
  let st :=
    { st with
      selectedFile := some file
      videoSrc := some ("blob:" ++ file.name)
      uploadedVideoId := none
      videoData := none
      subtitleData := none
      currentSubtitle := ""
      generatedThumbnail := none
      thumbnailFrames := []
      selectedFrameIndex := none
      brightnessLevel := 100
      contrastLevel := 100
      previewFilters := "" }
  uploadVideo st file uploadResult

/-- Embedding of the synchronous part of `processVideo`
(`src/src/pages/Features.tsx` lines 181-223): the precondition check on
`uploadedVideoId`, the initial `ProgressState`, and — once the trigger
request resolves — either the creation of the simulated progress-ramp
interval (`.ok`) or the error handling (`.error`: progress status set to the
error text, log, toast; `visible` is left on).  The ramp's random ticks are
not modelled; completion is `processVideoRampComplete`. -/
def processVideoStart (st : AppState) (feature : Feature) (trigger : Except String Unit) :
    AppState :=
  match st.uploadedVideoId with
  | none => pushToast st "Please upload a video first"
  | some _ =>
    let st :=
      setFeatureProgress st feature
        { visible := true, percentage := 0, status := "Starting processing..." }
    match trigger with
    | .ok _ =>
      let created := st.timers.setInterval
      { st with timers := created.1 }
    | .error message =>
      let st :=
        setFeatureProgress st feature
          { getFeatureProgress st feature with status := "Error: " ++ message }
      let st := logToConsole st ("Processing failed: " ++ message) "error"
      pushToast st message

/-- Embedding of the ramp-completion branch of `processVideo`
(`src/src/pages/Features.tsx` lines 202-211): the ramp interval `rampId` is
cleared, the feature's progress snaps to 100 with the success message, the
success is logged, and — when a job id is present — `startStatusCheck` is
re-invoked to refresh authoritative metadata. -/
def processVideoRampComplete (st : AppState) (feature : Feature) (rampId : Nat)
    (successMessage : String) : AppState :=
  let st := { st with timers := st.timers.clearInterval rampId }
  let st :=
    setFeatureProgress st feature
      { getFeatureProgress st feature with percentage := 100, status := successMessage }
  let st := logToConsole st successMessage "success"
  match st.uploadedVideoId with
  | some _ => startStatusCheck st
  | none => st

/-- Embedding of `handleVideoTimeUpdate` (`src/unnamed/part_000`
lines 185-198): store the playback time; then — only when a track exists AND
`showSubtitles` is true — run the cue lookup and store its result in
`currentSubtitle`.  When `showSubtitles` is false the lookup is skipped and
the stored subtitle is left as it was. -/
def handleVideoTimeUpdate (st : AppState) (time : ℚ) : AppState :=
  let st := { st with currentTime := time }
  match st.subtitleData, st.showSubtitles with
  | some data, true => { st with currentSubtitle := currentSubtitleFor data.cues time }
  | _, _ => st

/-- The text the subtitle overlay renders (`src/unnamed/part_000`
lines 997-1011): `currentSubtitle` when `showSubtitles` is on and the stored
subtitle is non-empty (both truthy), nothing otherwise. -/
def displayedSubtitle (st : AppState) : String :=
  if st.showSubtitles && st.currentSubtitle != "" then st.currentSubtitle else ""

/-- The `(code, name)` pairs of `languageOptions` (`src/unnamed/part_000`
lines 146-159); the decorative flag emoji are omitted. -/
def languageOptions : List (String × String) :=
  [("en", "English"), ("ur", "Urdu"), ("ru-ur", "Roman Urdu"), ("es", "Spanish"),
   ("fr", "French"), ("de", "German"), ("it", "Italian"), ("pt", "Portuguese"),
   ("ru", "Russian"), ("ja", "Japanese"), ("ko", "Korean"), ("zh", "Chinese")]

/-- Embedding of `getLanguageName` (`src/unnamed/part_000` lines 466-469). -/
def getLanguageName (code : String) : String :=
  ((languageOptions.find? (fun l => l.1 == code)).map Prod.snd).getD "English"

/-- Embedding of a successful run of `generateAdvancedSubtitles`
(`src/unnamed/part_000` lines 353-392) restricted to its durable state
writes: the guard on `uploadedVideoId`, the `subtitlesProgress` staging (only
the final stage value is kept; the intermediate `setTimeout`-driven stage
states are transient), the storing of the generated track, and the success
log and toast. -/
def generateAdvancedSubtitlesSuccess (st : AppState) (language : String) : AppState :=
  match st.uploadedVideoId with
  | none => pushToast st "Please upload a video first"
  | some _ =>
    let st :=
      { st with
        subtitlesProgress :=
          { visible := true, percentage := 100, status := "Subtitles generated successfully!" } }
    let st := { st with subtitleData := some (generateMockSubtitleData language) }
    let st :=
      logToConsole st
        ("Advanced subtitles generated in " ++ getLanguageName language ++
          " with word-level timing") "success"
    pushToast st "Subtitles generated with Whisper AI!"

/-- Example upload file for the concrete scenarios (the specification's
end-to-end scenario uses a 10 MB file). -/
def exFileA : FileInfo := { name := "demo.mp4", size := 10485760 }

/-- A second example file, selected to replace the first. -/
def exFileB : FileInfo := { name := "other.mov", size := 2048 }

/-- A poll reply with a non-terminal status. -/
def exProcessingData : VideoData :=
  { id := "v1", filename := "demo.mp4", status := "processing",
    metadata := none, outputs := none, error := none }

/-- A poll reply with a terminal status and final metadata. -/
def exCompletedData : VideoData :=
  { id := "v1", filename := "demo.mp4", status := "completed",
    metadata := some { duration := some 42, format := none,
                       resolution := some "1920x1080", fps := none },
    outputs := none, error := none }

/-- Fetch-outcome stream for a polling run whose second fetch reports the
terminal status. -/
def exPollResults : Nat → Option String :=
  fun n => if n = 0 then some "processing" else some "completed"

/-- A one-cue list used to instantiate the SRT-encoder structure theorem. -/
def exCues : List SubtitleCue := [{ start := 0, endTime := 7/2, text := "hi" }]

/-- State after selecting `exFileA` and uploading it successfully as job
`"v1"`: the upload ramp (timer 0) was cleared, the status poller (timer 1)
is running. -/
def exUploaded : AppState := handleFileSelect initialAppState exFileA (.ok "v1")

/-- State after the poller's first fetch replied `"processing"`: the poll
interval stays active. -/
def exPolling : AppState := checkStatusResult exUploaded (some exProcessingData)

/-- State after a subtitle-processing ramp (timer 2) completed while the
original poller was still running: `processVideo` re-invokes
`startStatusCheck`, which installs a second poll interval (timer 3). -/
def exRepolled : AppState :=
  processVideoRampComplete (processVideoStart exPolling .subtitles (.ok ())) .subtitles 2
    "Subtitles generated successfully"

/-- State after the re-started poller fetched a terminal status. -/
def exRepolledTerminal : AppState := checkStatusResult exRepolled (some exCompletedData)

/-- A working session on the first video: poller still running, subtitles
generated, and an audio-processing run just started (ramp timer 2). -/
def exSession : AppState :=
  processVideoStart (generateAdvancedSubtitlesSuccess exPolling "en") .audio (.ok ())

/-- State after selecting `exFileB` in the middle of `exSession` and
uploading it successfully as job `"v2"`. -/
def exReplaced : AppState := handleFileSelect exSession exFileB (.ok "v2")

/-- State after selecting `exFileA` when the upload request fails. -/
def exFailedUpload : AppState :=
  handleFileSelect initialAppState exFileA (.error "Network Error")

/-- Player state with generated English subtitles shown, after a time update
at 1 s (inside cue 0, so `currentSubtitle` holds cue 0's text). -/
def exPlayerShown : AppState :=
  handleVideoTimeUpdate (generateAdvancedSubtitlesSuccess exPolling "en") 1

/-- The same player state right after the user hides subtitles. -/
def exPlayerHidden : AppState := { exPlayerShown with showSubtitles := false }

/-! Helper lemmas. -/

theorem srtBlocksFrom_getElem? (cues : List SubtitleCue) (k i : Nat) :
    (srtBlocksFrom k cues)[i]? = (cues[i]?).map (fun cue => srtBlock (k + i) cue) := by
  induction cues generalizing k i with
  | nil => simp [srtBlocksFrom]
  | cons c rest ih =>
    cases i with
    | zero => simp [srtBlocksFrom]
    | succ i =>
      have e : k + 1 + i = k + (i + 1) := by omega
      simp only [srtBlocksFrom, List.getElem?_cons_succ, ih (k + 1) i, e]

theorem cuesFromTexts_getElem? (texts : List String) (k i : Nat) :
    (cuesFromTexts k texts)[i]? =
      (texts[i]?).map (fun text =>
        { start := ((k + i : Nat) : ℚ) * 4, endTime := (((k + i : Nat) : ℚ) + 1) * 4 - 0.5,
          text := text }) := by
  induction texts generalizing k i with
  | nil => simp [cuesFromTexts]
  | cons t rest ih =>
    cases i with
    | zero => simp [cuesFromTexts]
    | succ i =>
      have e : k + 1 + i = k + (i + 1) := by omega
      simp only [cuesFromTexts, List.getElem?_cons_succ, ih (k + 1) i, e]

theorem cuesFromTexts_length (texts : List String) (k : Nat) :
    (cuesFromTexts k texts).length = texts.length := by
  induction texts generalizing k with
  | nil => rfl
  | cons t rest ih => simp [cuesFromTexts, ih]

theorem cuesFromTexts_map_text (texts : List String) (k : Nat) :
    (cuesFromTexts k texts).map SubtitleCue.text = texts := by
  induction texts generalizing k with
  | nil => rfl
  | cons t rest ih => simp [cuesFromTexts, ih]

theorem subtitleTexts_cases (language : String) :
    subtitleTexts language = subtitleTextsEn ∨ subtitleTexts language = subtitleTextsUr ∨
    subtitleTexts language = subtitleTextsRuUr ∨ subtitleTexts language = subtitleTextsEs ∨
    subtitleTexts language = subtitleTextsFr ∨ subtitleTexts language = subtitleTextsDe := by
  unfold subtitleTexts
  split_ifs <;> tauto

theorem blockRoundTripsFrom_spec :
    ∀ (cues : List SubtitleCue) (k : Nat), blockRoundTripsFrom k cues = true →
      ∀ i cue, cues[i]? = some cue →
        parseSRTBlock (srtBlock (k + i) cue) =
          some (k + i + 1, cue.start, cue.endTime, cue.text)
  | [], _, _, i, cue, h => by simp at h
  | c :: rest, k, h, i, cue, hi => by
    rw [blockRoundTripsFrom, Bool.and_eq_true, decide_eq_true_iff] at h
    cases i with
    | zero =>
      simp only [List.getElem?_cons_zero, Option.some.injEq] at hi
      subst hi
      simpa using h.1
    | succ i =>
      have step := blockRoundTripsFrom_spec rest (k + 1) h.2 i cue (by simpa using hi)
      have e : k + 1 + i = k + (i + 1) := by omega
      rwa [e] at step

theorem statusFetchOccurs_of_false (results : Nat → Option String) (n : Nat)
    (h : statusFetchOccurs results n = false) :
    ∀ m, n ≤ m → statusFetchOccurs results m = false := by
  intro m hm
  induction m, hm using Nat.le_induction with
  | base => exact h
  | succ m _ ih => rw [statusFetchOccurs, ih, Bool.false_and]

theorem find?_of_first {α : Type} (p : α → Bool) :
    ∀ (l : List α) (i : Nat) (a : α), l[i]? = some a → p a = true →
      (∀ j b, j < i → l[j]? = some b → p b = false) → l.find? p = some a
  | [], i, a, h, _, _ => by simp at h
  | x :: rest, i, a, h, hp, hmin => by
    cases i with
    | zero =>
      simp only [List.getElem?_cons_zero, Option.some.injEq] at h
      subst h
      simp [List.find?_cons_of_pos, hp]
    | succ i =>
      have hx : p x = false := hmin 0 x (Nat.succ_pos i) (by simp)
      rw [List.find?_cons_of_neg _ (by simp [hx])]
      exact find?_of_first p rest i a (by simpa using h) hp
        (fun j b hj hb => hmin (j + 1) b (by omega) (by simpa using hb))

theorem cuesSorted_mono :
    ∀ (cues : List SubtitleCue), cuesSorted cues = true →
      ∀ (j k : Nat) (cj ck : SubtitleCue), j ≤ k → cues[j]? = some cj → cues[k]? = some ck →
        cj.start ≤ ck.start ∧ cj.endTime ≤ ck.endTime
  | [], _, j, k, cj, ck, _, hj, _ => by simp at hj
  | [a], _, j, k, cj, ck, _, hj, hk => by
    cases j with
    | zero =>
      cases k with
      | zero =>
        simp only [List.getElem?_cons_zero, Option.some.injEq] at hj hk
        subst hj; subst hk; exact ⟨le_refl _, le_refl _⟩
      | succ k => simp at hk
    | succ j => simp at hj
  | a :: b :: rest, h, j, k, cj, ck, hjk, hj, hk => by
    rw [cuesSorted, Bool.and_eq_true, Bool.and_eq_true, decide_eq_true_iff,
      decide_eq_true_iff] at h
    obtain ⟨⟨hab1, hab2⟩, htail⟩ := h
    cases j with
    | zero =>
      simp only [List.getElem?_cons_zero, Option.some.injEq] at hj
      subst hj
      cases k with
      | zero =>
        simp only [List.getElem?_cons_zero, Option.some.injEq] at hk
        subst hk; exact ⟨le_refl _, le_refl _⟩
      | succ k =>
        have step := cuesSorted_mono (b :: rest) htail 0 k b ck (Nat.zero_le k) (by simp)
          (by simpa using hk)
        exact ⟨le_trans hab1 step.1, le_trans hab2 step.2⟩
    | succ j =>
      cases k with
      | zero => omega
      | succ k =>
        exact cuesSorted_mono (b :: rest) htail j k cj ck (by omega)
          (by simpa using hj) (by simpa using hk)

/-! Claim theorems. -/

/-- C1: for every polling run started for a job id, the status poller fetches
immediately on start (tick 0 at 0 ms), then on a fixed 2-second interval
(tick n + 1 exactly 2000 ms after tick n), and once a fetched status is
terminal (`completed` or `failed`) the run's interval is cancelled, so no
fetch of this run ever occurs after the tick that observed the terminal
status. -/
theorem startStatusCheck_self_terminating_poll
    (results : Nat → Option String) (k : Nat) (status : String)
    (hk : statusFetchOccurs results k = true)
    (hres : results k = some status) (hterm : isTerminalStatus status = true) :
    statusFetchOccurs results 0 = true ∧
    statusFetchTimeMs 0 = 0 ∧
    (∀ n, statusFetchTimeMs (n + 1) = statusFetchTimeMs n + 2000) ∧
    (∀ m, k < m → statusFetchOccurs results m = false) := by
  refine ⟨rfl, rfl, fun n => by simp [statusFetchTimeMs, pollIntervalMs, Nat.succ_mul], ?_⟩
  intro m hm
  have h1 : statusFetchOccurs results (k + 1) = false := by
    rw [statusFetchOccurs, hk, hres]
    simp [hterm]
  exact statusFetchOccurs_of_false results (k + 1) h1 m hm

/-- Witness for C1 at the concrete outcome stream `exPollResults`
("processing", then "completed"): the immediate fetch occurs and no fetch
occurs after the terminal fetch at tick 1. -/
theorem startStatusCheck_self_terminating_poll_witness :
    statusFetchOccurs exPollResults 0 = true ∧ statusFetchOccurs exPollResults 2 = false := by
  have h := startStatusCheck_self_terminating_poll exPollResults 1 "completed" rfl rfl rfl
  exact ⟨h.1, h.2.2.2 2 (by omega)⟩

/-- C2: the SRT encoder emits for the cue at 0-based position `i` a block
consisting of the 1-based index `i + 1`, the `start --> end` time line and
the cue text, each block ending in a newline and blocks joined with a further
newline (blank-line separation); and the timestamp format is zero-padded
truncating `HH:MM:SS,mmm`: 0 s is `00:00:00,000`, 59.999 s is
`00:00:59,999`, 3600 s carries into the hours field as `01:00:00,000`, and
1.9994 s truncates (not rounds) to `00:00:01,999`. -/
theorem encodeSRT_blocks_and_time_format (cues : List SubtitleCue) :
    (∀ i cue, cues[i]? = some cue →
      (srtBlocksFrom 0 cues)[i]? =
        some (toString (i + 1) ++ "\n" ++ formatSRTTime cue.start ++ " --> " ++
          formatSRTTime cue.endTime ++ "\n" ++ cue.text ++ "\n")) ∧
    encodeSRT cues = String.intercalate "\n" (srtBlocksFrom 0 cues) ∧
    formatSRTTime 0 = "00:00:00,000" ∧
    formatSRTTime (59999/1000) = "00:00:59,999" ∧
    formatSRTTime 3600 = "01:00:00,000" ∧
    formatSRTTime (19994/10000) = "00:00:01,999" := by
  refine ⟨?_, rfl, by decide, by decide, by decide, by decide⟩
  intro i cue h
  rw [srtBlocksFrom_getElem?, h]
  simp [srtBlock]

/-- Witness for C2 at the one-cue list `exCues`. -/
theorem encodeSRT_blocks_and_time_format_witness :
    (srtBlocksFrom 0 exCues)[0]? = some "1\n00:00:00,000 --> 00:00:03,500\nhi\n" := by
  have h := (encodeSRT_blocks_and_time_format exCues).1 0
    { start := 0, endTime := 7/2, text := "hi" } (by decide)
  rw [h]
  decide

set_option maxRecDepth 8192 in
/-- C3: for every language code, subtitle generation produces one cue per
line of the selected canned list (English fallback), cue `i` spanning
`i * 4` to `(i + 1) * 4 - 0.5` seconds; for `"en"` the track has exactly
5 cues, cue 0 is `{start 0, end 3.5, "Welcome to this video demonstration."}`
and the srt string starts with
`"1\n00:00:00,000 --> 00:00:03,500\nWelcome to this video demonstration.\n"`. -/
theorem generateMockSubtitleData_cue_windows (language : String) :
    (generateMockSubtitleData language).cues.length = (subtitleTexts language).length ∧
    (∀ (i : Nat) (text : String), (subtitleTexts language)[i]? = some text →
      (generateMockSubtitleData language).cues[i]? =
        some { start := (i : ℚ) * 4, endTime := ((i : ℚ) + 1) * 4 - 0.5, text := text }) ∧
    (generateMockSubtitleData "en").cues.length = 5 ∧
    (generateMockSubtitleData "en").cues[0]? =
      some { start := 0, endTime := 7/2, text := "Welcome to this video demonstration." } ∧
    (∃ rest, (generateMockSubtitleData "en").srt =
      "1\n00:00:00,000 --> 00:00:03,500\nWelcome to this video demonstration.\n" ++ rest) := by
  refine ⟨cuesFromTexts_length _ 0, ?_, by decide, by decide, ?_⟩
  · intro i text h
    show (cuesFromTexts 0 (subtitleTexts language))[i]? = _
    rw [cuesFromTexts_getElem?, h]
    simp
  · refine ⟨"\n2\n00:00:04,000 --> 00:00:07,500\nThis showcases our advanced subtitle system.\n\n3\n00:00:08,000 --> 00:00:11,500\nPowered by OpenAI Whisper technology.\n\n4\n00:00:12,000 --> 00:00:15,500\nWith precise word-level timing synchronization.\n\n5\n00:00:16,000 --> 00:00:19,500\nSupporting multiple languages and styles.\n", ?_⟩
    decide

/-- Witness for C3 at language `"en"`, cue position 1. -/
theorem generateMockSubtitleData_cue_windows_witness :
    (generateMockSubtitleData "en").cues[1]? =
      some { start := (1 : ℚ) * 4, endTime := ((1 : ℚ) + 1) * 4 - 0.5,
             text := "This showcases our advanced subtitle system." } := by
  exact (generateMockSubtitleData_cue_windows "en").2.1 1
    "This showcases our advanced subtitle system." (by decide)

/-- C4: for every generated track, the text produced by the SRT encoder
round-trips — the emitted block of each cue, time-parsed back, recovers the
1-based index, the cue's start and end to millisecond precision (here
exactly, as the generated times are multiples of half a second) and the
exact cue text. -/
theorem generated_srt_round_trip (language : String) (i : Nat) (cue : SubtitleCue)
    (h : (generateMockSubtitleData language).cues[i]? = some cue) :
    (srtBlocksFrom 0 (generateMockSubtitleData language).cues)[i]? = some (srtBlock i cue) ∧
    parseSRTBlock (srtBlock i cue) = some (i + 1, cue.start, cue.endTime, cue.text) := by
  constructor
  · rw [srtBlocksFrom_getElem?, h]
    simp
  · have key : blockRoundTripsFrom 0 (generateMockSubtitleData language).cues = true := by
      show blockRoundTripsFrom 0 (cuesFromTexts 0 (subtitleTexts language)) = true
      rcases subtitleTexts_cases language with hc | hc | hc | hc | hc | hc <;> rw [hc] <;> decide
    have step := blockRoundTripsFrom_spec _ 0 key i cue h
    simpa using step

/-- Witness for C4 at language `"en"`, cue 0. -/
theorem generated_srt_round_trip_witness :
    parseSRTBlock (srtBlock 0
        { start := 0, endTime := 7/2, text := "Welcome to this video demonstration." }) =
      some (1, 0, 7/2, "Welcome to this video demonstration.") := by
  have h := (generated_srt_round_trip "en" 0
    { start := 0, endTime := 7/2, text := "Welcome to this video demonstration." } (by decide)).2
  simpa using h

/-- C5: the active-cue lookup returns the first cue in list order whose
window contains the playback time, the window test is inclusive at both ends
(`start ≤ t ∧ t ≤ end`, so a time exactly equal to a cue's end still resolves
to that cue), the result is empty when no cue matches, and — for a
chronologically ordered track — any time strictly between one cue's end and
the next cue's start resolves to the empty result. -/
theorem activeCue_lookup_spec (cues : List SubtitleCue) (t : ℚ) :
    (∀ (i : Nat) (cue : SubtitleCue), cues[i]? = some cue → cueMatches t cue = true →
      (∀ (j : Nat) (b : SubtitleCue), j < i → cues[j]? = some b → cueMatches t b = false) →
      activeCue cues t = some cue ∧ currentSubtitleFor cues t = cue.text) ∧
    (∀ cue : SubtitleCue, cueMatches t cue = true ↔ (cue.start ≤ t ∧ t ≤ cue.endTime)) ∧
    ((∀ cue ∈ cues, cueMatches t cue = false) →
      activeCue cues t = none ∧ currentSubtitleFor cues t = "") ∧
    (cuesSorted cues = true →
      ∀ (i : Nat) (ci ci1 : SubtitleCue), cues[i]? = some ci → cues[i + 1]? = some ci1 →
        ci.endTime < t → t < ci1.start →
        activeCue cues t = none ∧ currentSubtitleFor cues t = "") := by
  have hnone : (∀ cue ∈ cues, cueMatches t cue = false) →
      activeCue cues t = none ∧ currentSubtitleFor cues t = "" := by
    intro hall
    have h : activeCue cues t = none := by
      rw [activeCue, List.find?_eq_none]
      intro cue hc
      simp [hall cue hc]
    exact ⟨h, by rw [currentSubtitleFor, h]⟩
  refine ⟨?_, ?_, hnone, ?_⟩
  · intro i cue hi hp hmin
    have h : activeCue cues t = some cue := find?_of_first _ cues i cue hi hp hmin
    exact ⟨h, by rw [currentSubtitleFor, h]⟩
  · intro cue
    simp [cueMatches]
  · intro hsorted i ci ci1 hi hi1 hlt hgt
    refine hnone ?_
    intro cue hc
    obtain ⟨j, hj⟩ := List.mem_iff_getElem?.mp hc
    cases hb : cueMatches t cue with
    | false => rfl
    | true =>
      exfalso
      have hmatch : cue.start ≤ t ∧ t ≤ cue.endTime := by
        rw [cueMatches, Bool.and_eq_true, decide_eq_true_iff, decide_eq_true_iff] at hb
        exact hb
      rcases le_or_lt j i with hji | hij
      · have mono := cuesSorted_mono cues hsorted j i cue ci hji hj hi
        linarith [hmatch.2, mono.2, hlt]
      · have mono := cuesSorted_mono cues hsorted (i + 1) j ci1 cue (by omega) hi1 hj
        linarith [hmatch.1, mono.1, hgt]

/-- Witness for C5 on the generated English track: the time 3.5 s — exactly
cue 0's end — still resolves to cue 0's text, and the time 3.7 s, strictly
between cue 0's end and cue 1's start, resolves to the empty result. -/
theorem activeCue_lookup_spec_witness :
    currentSubtitleFor (generateMockSubtitleData "en").cues (7/2) =
      "Welcome to this video demonstration." ∧
    currentSubtitleFor (generateMockSubtitleData "en").cues (37/10) = "" := by
  constructor
  · exact ((activeCue_lookup_spec (generateMockSubtitleData "en").cues (7/2)).1 0
      { start := 0, endTime := 7/2, text := "Welcome to this video demonstration." }
      (by decide) (by decide) (fun j b hj _ => absurd hj (by omega))).2
  · exact ((activeCue_lookup_spec (generateMockSubtitleData "en").cues (37/10)).2.2.2
      (by decide) 0
      { start := 0, endTime := 7/2, text := "Welcome to this video demonstration." }
      { start := 4, endTime := 15/2, text := "This showcases our advanced subtitle system." }
      (by decide) (by decide) (by decide) (by decide)).2

/-- C10: for every language code outside the canned set
{en, ur, ru-ur, es, fr, de}, subtitle generation falls back to the English
line list for the cue texts but still labels the returned track with the
requested code; and the selector offers six such codes
(it, pt, ru, ja, ko, zh). -/
theorem generateMockSubtitleData_fallback_mislabels (language : String)
    (h : language ∉ ["en", "ur", "ru-ur", "es", "fr", "de"]) :
    (generateMockSubtitleData language).language = language ∧
    (generateMockSubtitleData language).cues.map SubtitleCue.text = subtitleTextsEn ∧
    (["it", "pt", "ru", "ja", "ko", "zh"].all
      (fun code => decide (code ∈ languageOptionCodes) &&
        decide (code ∉ ["en", "ur", "ru-ur", "es", "fr", "de"]))) = true := by
  simp only [List.mem_cons, List.not_mem_nil, or_false, not_or] at h
  obtain ⟨h1, h2, h3, h4, h5, h6⟩ := h
  refine ⟨rfl, ?_, by decide⟩
  show (cuesFromTexts 0 (subtitleTexts language)).map SubtitleCue.text = subtitleTextsEn
  rw [subtitleTexts, if_neg h1, if_neg h2, if_neg h3, if_neg h4, if_neg h5, if_neg h6]
  exact cuesFromTexts_map_text _ 0

/-- Witness for C10 at the selector code `"ja"`: the returned track is
labelled Japanese while its cue texts are the English lines. -/
theorem generateMockSubtitleData_fallback_mislabels_witness :
    (generateMockSubtitleData "ja").language = "ja" ∧
    (generateMockSubtitleData "ja").cues.map SubtitleCue.text = subtitleTextsEn := by
  have h := generateMockSubtitleData_fallback_mislabels "ja" (by decide)
  exact ⟨h.1, h.2.1⟩

/-- C6 (code bug): evaluation of the concrete leak scenario.  While the
original poller (interval 1) is still active with a non-terminal status, the
completion of a processing ramp re-invokes `startStatusCheck`, which installs
a second poll interval (3) and overwrites the ref WITHOUT clearing interval 1;
even after the new poller observes a terminal status, interval 1 is still
active and no reference to it remains — a leaked interval, contradicting the
claim that a prior active poller is cancelled before a new one is installed. -/
theorem startStatusCheck_leaks_prior_interval :
    exPolling.statusCheckIntervalRef = some 1 ∧
    exPolling.timers.active = [1] ∧
    exRepolled.timers.active = [1, 3] ∧
    exRepolled.statusCheckIntervalRef = some 3 ∧
    exRepolledTerminal.timers.active = [1] ∧
    exRepolledTerminal.statusCheckIntervalRef = none := by
  decide

set_option maxRecDepth 100000 in
/-- C7 (code bug): evaluation of the video-replacement scenario.  Selecting a
new file clears the subtitle track, the stored subtitle and the thumbnail
selection, but does NOT reset the feature `ProgressState`s (audio still shows
a running job, subtitles still show the old completed run) and does NOT
cancel the previous video's timers: the old poll interval 1 and the old
audio-processing ramp interval 2 are still active after the new upload, so
the discard cascade is partial, contradicting the claim. -/
theorem handleFileSelect_partial_reset :
    exSession.timers.active = [1, 2] ∧
    exSession.statusCheckIntervalRef = some 1 ∧
    exSession.audioProgress =
      { visible := true, percentage := 0, status := "Starting processing..." } ∧
    exReplaced.subtitleData = none ∧
    exReplaced.currentSubtitle = "" ∧
    exReplaced.selectedFrameIndex = none ∧
    exReplaced.audioProgress =
      { visible := true, percentage := 0, status := "Starting processing..." } ∧
    exReplaced.subtitlesProgress =
      { visible := true, percentage := 100, status := "Subtitles generated successfully!" } ∧
    exReplaced.timers.active = [1, 2, 4] := by
  decide

/-- C8 (code bug): evaluation of the failed-upload scenario.  When the upload
request rejects, no job id is stored, the failure is logged with an error
marker and surfaced as a toast, and `isUploading` is reset — but the
simulated progress-ramp interval (timer 0), created before the `await` inside
the `try` block, is never cleared on the error path, contradicting the
claim's "ramp is cancelled". -/
theorem uploadVideo_failure_leaves_ramp_running :
    exFailedUpload.timers.active = [0] ∧
    exFailedUpload.uploadedVideoId = none ∧
    exFailedUpload.statusCheckIntervalRef = none ∧
    exFailedUpload.isUploading = false ∧
    exFailedUpload.consoleLogs.getLast? =
      some { message := "Upload failed: Network Error", type := "error" } ∧
    exFailedUpload.toasts = ["Upload failed. Please try again."] := by
  decide

set_option maxRecDepth 100000 in
/-- C9 counterexample: the same track and the same playback time 3.7 s (in
the gap after cue 0) yield different stored lookup results depending on the
`showSubtitles` toggle — the handler skips the lookup entirely while
subtitles are hidden, so the toggle is checked before the lookup, not applied
to its result afterwards. -/
theorem showSubtitles_gate_counterexample :
    exPlayerShown.subtitleData = exPlayerHidden.subtitleData ∧
    exPlayerShown.currentSubtitle = "Welcome to this video demonstration." ∧
    (handleVideoTimeUpdate exPlayerShown (37/10)).currentSubtitle = "" ∧
    (handleVideoTimeUpdate exPlayerHidden (37/10)).currentSubtitle =
      "Welcome to this video demonstration." ∧
    (handleVideoTimeUpdate exPlayerShown (37/10)).currentSubtitle ≠
      (handleVideoTimeUpdate exPlayerHidden (37/10)).currentSubtitle := by
  decide

/-- C9 (amended): in the time-update handler the `showSubtitles` toggle is
checked BEFORE the active-cue lookup: when false, no lookup runs and the
stored subtitle is left unchanged (and the overlay displays nothing, since
the render gates on the toggle as well); when true and a track exists, the
lookup result is stored and is exactly what the overlay displays. -/
theorem showSubtitles_gate_placement (st : AppState) (time : ℚ) :
    (st.showSubtitles = false →
      (handleVideoTimeUpdate st time).currentSubtitle = st.currentSubtitle ∧
      displayedSubtitle (handleVideoTimeUpdate st time) = "") ∧
    (∀ data : SubtitleData, st.subtitleData = some data → st.showSubtitles = true →
      (handleVideoTimeUpdate st time).currentSubtitle = currentSubtitleFor data.cues time ∧
      displayedSubtitle (handleVideoTimeUpdate st time) =
        currentSubtitleFor data.cues time) ∧
    (st.subtitleData = none →
      (handleVideoTimeUpdate st time).currentSubtitle = st.currentSubtitle) := by
  refine ⟨fun hfalse => ?_, fun data hdata htrue => ?_, fun hnone => ?_⟩
  · cases hd : st.subtitleData with
    | none => simp [handleVideoTimeUpdate, displayedSubtitle, hd, hfalse]
    | some d => simp [handleVideoTimeUpdate, displayedSubtitle, hd, hfalse]
  · constructor
    · simp [handleVideoTimeUpdate, hdata, htrue]
    · by_cases hempty : currentSubtitleFor data.cues time = "" <;>
        simp [handleVideoTimeUpdate, displayedSubtitle, hdata, htrue, hempty]
  · simp [handleVideoTimeUpdate, hnone]

set_option maxRecDepth 100000 in
/-- Witness for the amended C9 at the concrete hidden and shown player
states and time 3.7 s. -/
theorem showSubtitles_gate_placement_witness :
    (handleVideoTimeUpdate exPlayerHidden (37/10)).currentSubtitle =
      exPlayerHidden.currentSubtitle ∧
    displayedSubtitle (handleVideoTimeUpdate exPlayerHidden (37/10)) = "" ∧
    (handleVideoTimeUpdate exPlayerShown (37/10)).currentSubtitle =
      currentSubtitleFor (generateMockSubtitleData "en").cues (37/10) := by
  have h1 := (showSubtitles_gate_placement exPlayerHidden (37/10)).1 (by decide)
  have h2 := (showSubtitles_gate_placement exPlayerShown (37/10)).2.1
    (generateMockSubtitleData "en") (by decide) (by decide)
  exact ⟨h1.1, h1.2, h2.1⟩
